import Mathlib

/-!
# Verification of the avatar-mvp job orchestrator

A shallow embedding of the Python Lambda handlers of the `avatar-mvp`
repository, together with theorems settling the specification claims about
the job-orchestration state machine.

Embedded source files:
* `src/lambda/check_nova_status.py` — the reconciliation cycle
  (`check_nova_status_handler`, `find_video_file`, `mux_audio_and_video`,
  `generate_presigned_url`);
* `src/lambda/get_job.py` — the status query (`get_job_handler`);
* `src/lambda/create_job.py` — job creation (`validate_request`, the
  handler's side-effect pipeline, `start_nova_reel_job`'s
  `videoGenerationConfig`, `store_job_metadata`);
* `src/lambda/mux_audio_video/mux_audio_video.py` — the separate merge
  lambda's DynamoDB update (`mux_handler`);
* `src/lambda/upload_url.py` — upload-key derivation;
* `src/sagemaker-voice-clone/inference.py` — voice-sample discovery in
  `predict_fn`.

External collaborators (DynamoDB, S3, Bedrock) are modelled as explicit
state: the DynamoDB job record is a structure, the Bedrock poll answer and
the S3 listing of the output location are inputs of a reconciliation cycle,
and S3 writes/merges are recorded in the cycle's result.  String scanning
helpers are implemented by structural recursion over the character list so
that every definition evaluates inside the kernel.
-/

namespace AvatarMvp

/-! ## Character-level string helpers

Kernel-computable equivalents of the Python string operations used by the
handlers (`str.lower().endswith(".mp4")`, `str.startswith("s3://")`,
`str.replace("s3://", "")`, `str.split("/", 1)`). -/

/-- Python `key.lower().endswith(".mp4")` from `find_video_file`:
ASCII-lowercase the characters, then compare the suffix. -/
def isMp4 (key : String) : Bool :=
  ".mp4".data.isSuffixOf (key.data.map Char.toLower)

/-- Python `s.startswith(p)`, on character lists. -/
def startsWithStr (s p : String) : Bool :=
  p.data.isPrefixOf s.data

/-- Python `s3_uri.replace("s3://", "")`: remove every (non-overlapping,
leftmost-first) occurrence of the five-character marker `s3://`. -/
def removeS3Marker : List Char → List Char
  | 's' :: '3' :: ':' :: '/' :: '/' :: rest => removeS3Marker rest
  | c :: cs => c :: removeS3Marker cs
  | [] => []

/-- Python `rest.split("/", 1)`: split at the first `/` only.  Returns the
part before the first slash and, when a slash exists, the remainder. -/
def splitFirstSlash : List Char → List Char × Option (List Char)
  | [] => ([], none)
  | c :: cs =>
    if c = '/' then ([], some cs)
    else
      let r := splitFirstSlash cs
      (c :: r.1, r.2)

/-! ## Data model

The DynamoDB job record.  Attribute access in the Python code goes through
`item.get(...)`; attributes that the code may find absent are `Option`s.
`failureReason` is carried so that theorems can talk about it; no handler in
the repository ever writes such an attribute. -/

/-- A job record in the `JOBS_TABLE_NAME` DynamoDB table. -/
structure JobItem where
  jobId : String
  userId : String := ""
  status : String
  audioKey : Option String := none
  avatarKey : String := ""
  voiceMode : String := ""
  gestureMode : String := ""
  novaInvocationArn : String := ""
  createdAt : Nat := 0
  novaVideoKey : Option String := none
  finalVideoKey : Option String := none
  failureReason : Option String := none
deriving Repr, DecidableEq

/-- Python truthiness of an optional string attribute
(`item.get("k", {}).get("S")` used as a condition): present and non-empty. -/
def truthy (o : Option String) : Bool := o.getD "" != ""

/-! ## Environment of one reconciliation cycle -/

/-- The relevant fields of a `bedrock.get_async_invoke` response:
`status` and `outputDataConfig.s3OutputDataConfig.s3Uri`, each possibly
absent. -/
structure AsyncInvokeResp where
  invStatus : Option String := none
  s3OutputUri : Option String := none
deriving Repr, DecidableEq

/-- Outcome of the `get_async_invoke` call: a `ClientError` (caught and
treated as still-initializing) or a response. -/
inductive PollOutcome where
  | clientErr
  | ok (resp : AsyncInvokeResp)
deriving Repr, DecidableEq

/-- External inputs of one reconciliation cycle: the Bedrock poll outcome
and the S3 listing (object keys) of the Nova output location. -/
structure ReconcileEnv where
  poll : PollOutcome
  listing : List String
deriving Repr, DecidableEq

/-! ## check_nova_status.py -/

/-- The `FINAL_PREFIX` environment default of `check_nova_status.py`:
`renders/final/`. -/
def finalVideoPfx : String := "renders/final/"

/-- The `BUCKET_NAME` environment value; an arbitrary fixed bucket name. -/
def BUCKET_NAME : String := "avatar-bucket"

/-- Function `generate_presigned_url` from `check_nova_status.py` (and the inline
`generate_presigned_url` calls of `get_job.py`): modelled as the
deterministic successful presigning of `bucket/key`. -/
def generate_presigned_url (bucket key : String) : String :=
  "https://" ++ bucket ++ ".s3.amazonaws.com/" ++ key ++ "?signed"

/-- Function `find_video_file(s3_uri)` from `check_nova_status.py`.  The S3 listing
of the parsed location is supplied as `contents`.  Returns `none` when the
function raises `ValueError` (URI missing the `s3://` scheme), otherwise
`some (bucket, keyOpt)` where `keyOpt` is the first listed key whose
lowercase form ends in `.mp4`, if any. -/
def find_video_file (s3_uri : String) (contents : List String) :
    Option (String × Option String) :=
  if startsWithStr s3_uri "s3://" = true then
    let stripped := removeS3Marker s3_uri.data
    let bucket := String.mk (splitFirstSlash stripped).1
    some (bucket, contents.find? isMp4)
  else
    none

/-- Function `mux_audio_and_video` from `check_nova_status.py`: downloads the raw
video and audio, runs the ffmpeg merge, uploads the result, and returns the
final key `FINAL_PREFIX + job_id + ".mp4"`.  The merge computation itself is
opaque; its execution is counted by the caller. -/
def mux_audio_and_video (job_id : String) : String :=
  finalVideoPfx ++ job_id ++ ".mp4"

/-- The JSON object returned by `check_nova_status_handler`. -/
structure HandlerOut where
  jobId : String := ""
  outStatus : String
  reason : Option String := none
  novaVideoKey : Option String := none
  downloadUrl : Option String := none
  errMsg : Option String := none
deriving Repr, DecidableEq

/-- Result of one reconciliation cycle: the returned JSON object, the job
record stored after the cycle, and how many times the merge computation
ran during the cycle. -/
structure ReconcileResult where
  out : HandlerOut
  store : Option JobItem
  merges : Nat
deriving Repr, DecidableEq

/-- Function `check_nova_status_handler` from `check_nova_status.py`, as a function
of the incoming `jobId`, the current job record (`none` = no DynamoDB
item), and the external environment of the cycle.

Branches, in source order: missing `jobId` raises and is caught by the
outer handler (`FAILED` with an error message); missing item returns
`JobNotFound`; missing `audioKey` returns `AudioMissing`; an existing
`finalVideoKey` short-circuits to `READY` with the existing key; a
`ClientError` from Bedrock, or status `IN_PROGRESS`/`SUBMITTED`/absent,
returns `PENDING`; status `FAILED` persists `status = FAILED`; any other
status falls through to the completed path, which fails without an output
URI, raises on a malformed URI, stays `PENDING` while no `.mp4` is listed,
and otherwise runs the merge and persists `READY` with both video keys. -/
def check_nova_status_handler (job_id : String) (store : Option JobItem)
    (env : ReconcileEnv) : ReconcileResult :=
  if job_id = "" then
    ⟨{ jobId := job_id, outStatus := "FAILED",
       errMsg := some "Missing jobId in input" }, store, 0⟩
  else
    match store with
    | none =>
      ⟨{ jobId := job_id, outStatus := "FAILED",
         reason := some "JobNotFound" }, none, 0⟩
    | some item =>
      if truthy item.audioKey = false then
        ⟨{ jobId := job_id, outStatus := "FAILED",
           reason := some "AudioMissing" }, some item, 0⟩
      else
        let existing_final := item.finalVideoKey.getD ""
        if existing_final = "" then
          match env.poll with
          | .clientErr =>
            ⟨{ jobId := job_id, outStatus := "PENDING" }, some item, 0⟩
          | .ok resp =>
            match resp.invStatus with
            | none =>
              ⟨{ jobId := job_id, outStatus := "PENDING" }, some item, 0⟩
            | some s =>
              if s = "IN_PROGRESS" ∨ s = "SUBMITTED" then
                ⟨{ jobId := job_id, outStatus := "PENDING" }, some item, 0⟩
              else if s = "FAILED" then
                ⟨{ jobId := job_id, outStatus := "FAILED" },
                 some { item with status := "FAILED" }, 0⟩
              else
                match resp.s3OutputUri with
                | none =>
                  ⟨{ jobId := job_id, outStatus := "FAILED" }, some item, 0⟩
                | some uri =>
                  match find_video_file uri env.listing with
                  | none =>
                    ⟨{ jobId := job_id, outStatus := "FAILED",
                       errMsg := some "Invalid S3 URI" }, some item, 0⟩
                  | some (_, none) =>
                    ⟨{ jobId := job_id, outStatus := "PENDING" },
                     some item, 0⟩
                  | some (_, some nova_key) =>
                    let final_key := mux_audio_and_video job_id
                    ⟨{ jobId := job_id, outStatus := "READY",
                       novaVideoKey := some final_key,
                       downloadUrl :=
                         some (generate_presigned_url BUCKET_NAME final_key) },
                     some { item with
                              status := "READY",
                              novaVideoKey := some nova_key,
                              finalVideoKey := some final_key }, 1⟩
        else
          ⟨{ jobId := job_id, outStatus := "READY",
             novaVideoKey := some existing_final,
             downloadUrl :=
               some (generate_presigned_url BUCKET_NAME existing_final) },
           some item, 0⟩

/-! ## mux_audio_video.py -/

/-- The DynamoDB update performed by `mux_handler` after a successful
merge: `SET status = COMPLETED, finalVideoKey = renders/final/<jobId>.mp4`.
Reached only when the item exists and its `audioKey` attribute is present
(the handler raises before any write otherwise). -/
def mux_handler_update (job_id : String) (item : JobItem) : JobItem :=
  { item with
      status := "COMPLETED",
      finalVideoKey := some (finalVideoPfx ++ job_id ++ ".mp4") }

/-! ## get_job.py -/

/-- The JSON body returned by `get_job_handler`. -/
structure GetJobOut where
  statusCode : Nat
  jobStatus : Option String := none
  videoUrl : Option String := none
  errMsg : Option String := none
deriving Repr, DecidableEq

/-- The internal-to-frontend status mapping of `get_job_handler`:
`READY` is reported as `COMPLETED`, everything else unchanged. -/
def ui_status_of (raw : String) : String :=
  if raw = "READY" then "COMPLETED" else raw

/-- Function `get_job_handler` from `get_job.py`: 400 without a `jobId`, 404 without
an item; otherwise 200 with the mapped status and, when the mapped status
is `COMPLETED` and a video key exists (`finalVideoKey or novaVideoKey`,
Python truthiness), a presigned video URL. -/
def get_job_handler (job_id : String) (store : Option JobItem) : GetJobOut :=
  if job_id = "" then
    { statusCode := 400, errMsg := some "Missing jobId in path" }
  else
    match store with
    | none => { statusCode := 404, errMsg := some "Job not found" }
    | some item =>
      let ui := ui_status_of item.status
      let video_key :=
        if truthy item.finalVideoKey = true then item.finalVideoKey.getD ""
        else item.novaVideoKey.getD ""
      if ui = "COMPLETED" ∧ video_key ≠ "" then
        { statusCode := 200, jobStatus := some ui,
          videoUrl := some (generate_presigned_url BUCKET_NAME video_key) }
      else
        { statusCode := 200, jobStatus := some ui }

/-! ## create_job.py -/

/-- Constant `DEFAULT_DURATION` from `create_job.py`. -/
def DEFAULT_DURATION : Int := 18

/-- The parsed request body of `create_job` (`durationSeconds` already
parsed to an integer; `none` models an absent key). -/
structure CreateBody where
  userId : Option String := none
  script : Option String := none
  avatarKey : Option String := none
  durationSeconds : Option Int := none
  voiceMode : Option String := none
  gestureMode : Option String := none
deriving Repr, DecidableEq

/-- Function `validate_request` from `create_job.py`: `script` and `avatarKey` must
be present and non-empty; `voiceMode` (default `polly`) must be `polly` or
`cloned`; `gestureMode` (default `subtle`) must be `subtle` or
`expressive`; `durationSeconds` (default 18) must lie in `[5, 120]`. -/
def validate_request (b : CreateBody) : Except String Unit :=
  if truthy b.script = false then
    .error "Missing required field: script"
  else if truthy b.avatarKey = false then
    .error "Missing required field: avatarKey"
  else
    let voice_mode := b.voiceMode.getD "polly"
    if voice_mode ≠ "polly" ∧ voice_mode ≠ "cloned" then
      .error "Invalid voiceMode"
    else
      let gesture_mode := b.gestureMode.getD "subtle"
      if gesture_mode ≠ "subtle" ∧ gesture_mode ≠ "expressive" then
        .error "Invalid gestureMode"
      else
        let duration := b.durationSeconds.getD DEFAULT_DURATION
        if duration < 5 ∨ 120 < duration then
          .error "durationSeconds must be between 5 and 120"
        else
          .ok ()

/-- Holds exactly when `validate_request` rejects the body. -/
def validationRejects (b : CreateBody) : Bool :=
  match validate_request b with
  | .error _ => true
  | .ok _ => false

/-- The `videoGenerationConfig` dict built by `start_nova_reel_job`.  The
handler's `duration_seconds` parameter is received but the dict hardcodes
`durationSeconds: 6` (the source clamps to 6 s for TEXT_VIDEO). -/
structure VideoGenerationConfig where
  durationSeconds : Int
  fps : Nat
  dimension : String
deriving Repr, DecidableEq

/-- The `videoGenerationConfig` built by `start_nova_reel_job`, as a function of the
caller-requested duration (which the source ignores). -/
def start_nova_reel_config (duration_seconds : Int) : VideoGenerationConfig :=
  let _ := duration_seconds
  { durationSeconds := 6, fps := 24, dimension := "1280x720" }

/-- Function `store_job_metadata` from `create_job.py`: the job record written by
`put_item` at creation. -/
def store_job_metadata (job_id user_id audio_key avatar_key voice_mode
    gesture_mode invocation_arn : String) (now : Nat) : JobItem :=
  { jobId := job_id, userId := user_id, status := "PENDING",
    audioKey := some audio_key, avatarKey := avatar_key,
    voiceMode := voice_mode, gestureMode := gesture_mode,
    novaInvocationArn := invocation_arn, createdAt := now }

/-- The exact attribute-name/value list of `store_job_metadata`'s
`put_item` call (`createdAt` rendered as its numeric string). -/
def store_job_metadata_attrs (job_id user_id audio_key avatar_key voice_mode
    gesture_mode invocation_arn : String) (now : Nat) :
    List (String × String) :=
  [("jobId", job_id), ("userId", user_id), ("status", "PENDING"),
   ("audioKey", audio_key), ("avatarKey", avatar_key),
   ("voiceMode", voice_mode), ("gestureMode", gesture_mode),
   ("novaInvocationArn", invocation_arn), ("createdAt", toString now)]

/-- An observable side effect of the `create_job` handler, in the order the
handler performs them. -/
inductive Effect where
  | synthesizeAudio (script voice_mode user_id : String)
  | putObject (key content_type : String)
  | startNovaReel (config : VideoGenerationConfig) (avatar_key : String)
  | putJobItem (item : JobItem)
  | startExecution (job_id : String)
deriving Repr, DecidableEq

/-- The `create_job` handler pipeline after body parsing: validation, then
audio synthesis, audio upload, Nova Reel dispatch, metadata write, and the
Step Functions start.  A validation error returns HTTP 400 with no side
effects.  `job_id`, `invocation_arn` and `now` stand for the generated
UUID, the Bedrock invocation ARN and the wall clock. -/
def create_job_handler (b : CreateBody) (job_id invocation_arn : String)
    (now : Nat) : Nat × List Effect :=
  match validate_request b with
  | .error _ => (400, [])
  | .ok _ =>
    let user_id := b.userId.getD "anonymous"
    let script := b.script.getD ""
    let avatar_key := b.avatarKey.getD ""
    let duration_seconds := b.durationSeconds.getD DEFAULT_DURATION
    let voice_mode := b.voiceMode.getD "polly"
    let gesture_mode := b.gestureMode.getD "subtle"
    let audio_key := "renders/audio/" ++ job_id ++ ".mp3"
    (200,
      [Effect.synthesizeAudio script voice_mode user_id,
       Effect.putObject audio_key "audio/mpeg",
       Effect.startNovaReel (start_nova_reel_config duration_seconds)
         avatar_key,
       Effect.putJobItem (store_job_metadata job_id user_id audio_key
         avatar_key voice_mode gesture_mode invocation_arn now),
       Effect.startExecution job_id])

/-! ## upload_url.py and the voice-clone inference contract -/

/-- The S3 object key chosen by `upload_url.handler` for a file type:
`uploads/{userId}/{fileName}` for avatars, `voice-samples/{userId}/{fileName}`
for voice samples, and `none` (HTTP 400) otherwise. -/
def upload_object_key (user_id file_name file_type : String) :
    Option String :=
  if file_type = "avatar" then
    some ("uploads/" ++ user_id ++ "/" ++ file_name)
  else if file_type = "voice" then
    some ("voice-samples/" ++ user_id ++ "/" ++ file_name)
  else
    none

/-- The `voiceSamplesPrefix` sent by `generate_cloned_audio` in
`create_job.py`, which is also the default `predict_fn` computes in
`inference.py`: `voice-samples/{userId}/`. -/
def voiceSamplesPfxOf (user_id : String) : String :=
  "voice-samples/" ++ user_id ++ "/"

/-- S3 `list_objects_v2(Bucket=..., Prefix=pfx)` over a bucket holding
`objects`: the keys having `pfx` as a prefix, in listing order. -/
def s3_list_objects (objects : List String) (pfx : String) : List String :=
  objects.filter (fun k => pfx.data.isPrefixOf k.data)

/-- The sample selected by `predict_fn` in `inference.py`: the first object
listed under the user's voice-sample location (`contents[0]`), `none` when
the listing is empty (the `RuntimeError` path). -/
def predict_find_sample (objects : List String) (user_id : String) :
    Option String :=
  (s3_list_objects objects (voiceSamplesPfxOf user_id)).head?

/-! ## The orchestrator's transition relation and the final-artifact invariant -/

/-- One persisted transition of the orchestrator on a single job's record:
creation (`create_job`), a reconciliation cycle (`check_nova_status`), or
the separate merge lambda (`mux_audio_video`). -/
inductive OrchStep : Option JobItem → Option JobItem → Prop where
  | create (job_id user_id audio_key avatar_key voice_mode gesture_mode
        invocation_arn : String) (now : Nat) :
      OrchStep none (some (store_job_metadata job_id user_id audio_key
        avatar_key voice_mode gesture_mode invocation_arn now))
  | reconcile (job_id : String) (store : Option JobItem)
        (env : ReconcileEnv) :
      OrchStep store (check_nova_status_handler job_id store env).store
  | mux (job_id : String) (item : JobItem) (h : item.audioKey.isSome = true) :
      OrchStep (some item) (some (mux_handler_update job_id item))

/-- The final-artifact/state relationship the repository actually
maintains: `finalVideoKey` is non-empty exactly on records whose status is
`READY` or `COMPLETED`. -/
def finalInv (item : JobItem) : Prop :=
  (item.finalVideoKey.getD "" ≠ "") ↔
    (item.status = "READY" ∨ item.status = "COMPLETED")

instance (item : JobItem) : Decidable (finalInv item) := by
  unfold finalInv
  infer_instance

/-- Two reconciliation cycles for the same job overlapping in time
(duplicate scheduler invocation, retried timeout): both stateless
invocations read the job record before either one commits its write, so
each cycle's behaviour is the pure function of the shared snapshot. -/
def overlapped_reconcile (job_id : String) (store : Option JobItem)
    (env : ReconcileEnv) : ReconcileResult × ReconcileResult :=
  (check_nova_status_handler job_id store env,
   check_nova_status_handler job_id store env)

/-- Runs `n + 1` successive reconciliation cycles under a fixed external
environment, each one reading the record the previous cycle left. -/
def iterate_reconcile (job_id : String) (env : ReconcileEnv) :
    Nat → Option JobItem → ReconcileResult
  | 0, store => check_nova_status_handler job_id store env
  | n + 1, store =>
    iterate_reconcile job_id env n
      (check_nova_status_handler job_id store env).store

/-! ## Concrete fixtures used by counterexamples and witnesses -/

/-- A freshly created job record, exactly as `store_job_metadata` writes
it. -/
def item0 : JobItem :=
  store_job_metadata "job-1" "u1" "renders/audio/job-1.mp3"
    "uploads/u1/avatar.png" "polly" "subtle" "arn-1" 1700000000

/-- Environment: Bedrock reports `COMPLETED` and the output listing
contains one `.mp4` object. -/
def env0 : ReconcileEnv :=
  { poll := PollOutcome.ok
      { invStatus := some "COMPLETED",
        s3OutputUri := some "s3://avatar-bucket/renders/raw-video/job-1/" },
    listing := ["renders/raw-video/job-1/output.mp4"] }

/-- Environment: Bedrock reports `COMPLETED` but the (non-empty) output
listing holds no object with the `.mp4` suffix. -/
def envNoMp4 : ReconcileEnv :=
  { poll := PollOutcome.ok
      { invStatus := some "COMPLETED",
        s3OutputUri := some "s3://avatar-bucket/renders/raw-video/job-1/" },
    listing := ["renders/raw-video/job-1/output.txt"] }

/-- Environment: Bedrock reports `FAILED`. -/
def envFailed : ReconcileEnv :=
  { poll := PollOutcome.ok { invStatus := some "FAILED" }, listing := [] }

/-- The record `check_nova_status` persists on the merge path, used as a
concrete `READY` record. -/
def readyItem0 : JobItem :=
  { item0 with
      status := "READY",
      novaVideoKey := some "renders/raw-video/job-1/output.mp4",
      finalVideoKey := some "renders/final/job-1.mp4" }

/-- A request body that is valid except for its gesture mode. -/
def bodyBadGesture : CreateBody :=
  { userId := some "u1", script := some "hello",
    avatarKey := some "uploads/u1/avatar.png", durationSeconds := some 18,
    voiceMode := some "polly", gestureMode := some "wild" }

/-- A request body using the spec's literal voice-mode name `standard`. -/
def bodyStandardVoice : CreateBody :=
  { userId := some "u1", script := some "hello",
    avatarKey := some "uploads/u1/avatar.png", durationSeconds := some 18,
    voiceMode := some "standard", gestureMode := some "subtle" }

/-- A fully valid request body. -/
def bodyOk : CreateBody :=
  { userId := some "u1", script := some "hello",
    avatarKey := some "uploads/u1/avatar.png", durationSeconds := some 18,
    voiceMode := some "polly", gestureMode := some "subtle" }

/-! ## Helper lemmas -/

/-- The merged-video key is never the empty string. -/
theorem mux_key_ne_empty (j : String) : mux_audio_and_video j ≠ "" := by
  intro h
  unfold mux_audio_and_video at h
  have hl := congrArg String.length h
  rw [String.length_append, String.length_append] at hl
  have h1 : finalVideoPfx.length = 14 := by decide
  have h2 : (".mp4" : String).length = 4 := by decide
  have h3 : ("" : String).length = 0 := rfl
  omega

/-- A reconciliation cycle on a missing record never writes anything. -/
theorem reconcile_none_store (jid : String) (env : ReconcileEnv) :
    (check_nova_status_handler jid none env).store = none := by
  unfold check_nova_status_handler
  split <;> rfl

/-- The three possible stored outcomes of a reconciliation cycle on an
existing record: unchanged, marked `FAILED` (only when no final key was
present), or marked `READY` with both video keys set. -/
theorem reconcile_store_shape (jid : String) (item : JobItem)
    (env : ReconcileEnv) :
    (check_nova_status_handler jid (some item) env).store = some item ∨
    ((check_nova_status_handler jid (some item) env).store =
        some { item with status := "FAILED" } ∧
      item.finalVideoKey.getD "" = "") ∨
    (∃ k, (check_nova_status_handler jid (some item) env).store =
        some { item with
                 status := "READY", novaVideoKey := some k,
                 finalVideoKey := some (mux_audio_and_video jid) }) := by
  simp only [check_nova_status_handler]
  split
  · exact Or.inl rfl
  · split
    · exact Or.inl rfl
    · split
      · rename_i hf
        split
        · exact Or.inl rfl
        · split
          · exact Or.inl rfl
          · split
            · exact Or.inl rfl
            · split
              · exact Or.inr (Or.inl ⟨rfl, hf⟩)
              · split
                · exact Or.inl rfl
                · split
                  · exact Or.inl rfl
                  · exact Or.inl rfl
                  · rename_i nova_key _
                    exact Or.inr (Or.inr ⟨nova_key, rfl⟩)
      · exact Or.inl rfl

/-- Reconciliation preserves the final-key/state relationship. -/
theorem reconcile_preserves_finalInv (jid : String) (store : Option JobItem)
    (env : ReconcileEnv) (hs : ∀ i, store = some i → finalInv i) :
    ∀ i', (check_nova_status_handler jid store env).store = some i' →
      finalInv i' := by
  intro i' hi'
  cases store with
  | none =>
    rw [reconcile_none_store] at hi'
    cases hi'
  | some item =>
    have hitem : finalInv item := hs item rfl
    rcases reconcile_store_shape jid item env with h | ⟨h, hf⟩ | ⟨k, h⟩
    · rw [h] at hi'
      obtain rfl := Option.some.inj hi'
      exact hitem
    · rw [h] at hi'
      obtain rfl := Option.some.inj hi'
      unfold finalInv
      constructor
      · intro hne
        exact absurd hf hne
      · intro hor
        have hne1 : ("FAILED" : String) ≠ "READY" := by decide
        have hne2 : ("FAILED" : String) ≠ "COMPLETED" := by decide
        rcases hor with hx | hx
        · exact absurd hx hne1
        · exact absurd hx hne2
    · rw [h] at hi'
      obtain rfl := Option.some.inj hi'
      unfold finalInv
      constructor
      · intro _
        exact Or.inl rfl
      · intro _
        exact mux_key_ne_empty jid

/-- Full characterization of a reconciliation cycle on the
completed-and-visible path: external status `COMPLETED`, valid output URI,
a matching object in the listing, no final key yet.  One merge runs and
`READY` is persisted with the raw key and the final key. -/
theorem reconcile_merge_eq (item : JobItem) (jid uri k : String)
    (listing : List String)
    (hjid : ¬ jid = "") (ha : ¬ truthy item.audioKey = false)
    (hf : item.finalVideoKey.getD "" = "")
    (hu : startsWithStr uri "s3://" = true)
    (hk : listing.find? isMp4 = some k) :
    check_nova_status_handler jid (some item)
        ⟨PollOutcome.ok ⟨some "COMPLETED", some uri⟩, listing⟩ =
      ⟨{ jobId := jid, outStatus := "READY",
         novaVideoKey := some (mux_audio_and_video jid),
         downloadUrl := some (generate_presigned_url BUCKET_NAME
           (mux_audio_and_video jid)) },
       some { item with
                status := "READY", novaVideoKey := some k,
                finalVideoKey := some (mux_audio_and_video jid) }, 1⟩ := by
  have h1 : ¬(("COMPLETED" : String) = "IN_PROGRESS" ∨
      ("COMPLETED" : String) = "SUBMITTED") := by decide
  have h2 : ¬(("COMPLETED" : String) = "FAILED") := by decide
  simp only [check_nova_status_handler, find_video_file, if_neg hjid,
    if_neg ha, if_pos hf, if_neg h1, if_neg h2, if_pos hu, hk]

/-- A reconciliation cycle short-circuits on an existing `finalVideoKey`:
regardless of the environment it returns `READY` with the stored key,
changes nothing and merges nothing. -/
theorem reconcile_shortcircuit_eq (item : JobItem) (jid : String)
    (env : ReconcileEnv)
    (hjid : ¬ jid = "") (ha : ¬ truthy item.audioKey = false)
    (hf : ¬ item.finalVideoKey.getD "" = "") :
    check_nova_status_handler jid (some item) env =
      ⟨{ jobId := jid, outStatus := "READY",
         novaVideoKey := some (item.finalVideoKey.getD ""),
         downloadUrl := some (generate_presigned_url BUCKET_NAME
           (item.finalVideoKey.getD "")) },
       some item, 0⟩ := by
  simp only [check_nova_status_handler, if_neg hjid, if_neg ha, if_neg hf]

/-- Completed path with no matching object in the listing (empty listing
included): the cycle reports `PENDING`, stores nothing new and merges
nothing. -/
theorem reconcile_not_visible_eq (item : JobItem) (jid uri : String)
    (listing : List String)
    (hjid : ¬ jid = "") (ha : ¬ truthy item.audioKey = false)
    (hf : item.finalVideoKey.getD "" = "")
    (hu : startsWithStr uri "s3://" = true)
    (hk : listing.find? isMp4 = none) :
    check_nova_status_handler jid (some item)
        ⟨PollOutcome.ok ⟨some "COMPLETED", some uri⟩, listing⟩ =
      ⟨{ jobId := jid, outStatus := "PENDING" }, some item, 0⟩ := by
  have h1 : ¬(("COMPLETED" : String) = "IN_PROGRESS" ∨
      ("COMPLETED" : String) = "SUBMITTED") := by decide
  have h2 : ¬(("COMPLETED" : String) = "FAILED") := by decide
  simp only [check_nova_status_handler, find_video_file, if_neg hjid,
    if_neg ha, if_pos hf, if_neg h1, if_neg h2, if_pos hu, hk]

/-- External status `FAILED`: the cycle returns `FAILED` with no reason
field and persists only `status = FAILED` on the record. -/
theorem reconcile_extfail_eq (item : JobItem) (jid : String)
    (listing : List String) (uriOpt : Option String)
    (hjid : ¬ jid = "") (ha : ¬ truthy item.audioKey = false)
    (hf : item.finalVideoKey.getD "" = "") :
    check_nova_status_handler jid (some item)
        ⟨PollOutcome.ok ⟨some "FAILED", uriOpt⟩, listing⟩ =
      ⟨{ jobId := jid, outStatus := "FAILED" },
       some { item with status := "FAILED" }, 0⟩ := by
  have h1 : ¬(("FAILED" : String) = "IN_PROGRESS" ∨
      ("FAILED" : String) = "SUBMITTED") := by decide
  have h2 : ("FAILED" : String) = "FAILED" := rfl
  simp only [check_nova_status_handler, if_neg hjid, if_neg ha, if_pos hf,
    if_neg h1, if_pos h2, if_true]

/-- A `true` Boolean is not `false`. -/
theorem bool_ne_false {b : Bool} (h : b = true) : ¬ b = false := by
  intro hc
  rw [h] at hc
  cases hc

/-- Behaviour of `get_job_handler` on a record in status `READY` with a non-empty
`finalVideoKey`: HTTP 200, reported status `COMPLETED`, presigned URL for
the final key. -/
theorem get_job_ready_eq (item : JobItem) (jid : String)
    (hjid : ¬ jid = "") (hst : item.status = "READY")
    (hk : ¬ item.finalVideoKey.getD "" = "") :
    get_job_handler jid (some item) =
      { statusCode := 200, jobStatus := some "COMPLETED",
        videoUrl := some (generate_presigned_url BUCKET_NAME
          (item.finalVideoKey.getD "")) } := by
  have htr : truthy item.finalVideoKey = true := by
    unfold truthy
    simpa using hk
  simp [get_job_handler, ui_status_of, hst, htr, hjid, hk]

/-! ## C1 — final artifact reference versus persisted state -/

/-- C1 (corrected): the claimed invariant "`finalVideoKey` non-empty iff
persisted status is `COMPLETED`" fails (see `c1_counterexample`: the
reconcile cycle persists a non-empty `finalVideoKey` together with status
`READY`).  The relationship every persisted transition of the orchestrator
actually preserves is: `finalVideoKey` is non-empty iff the persisted
status is `READY` or `COMPLETED`. -/
theorem c1_final_key_iff_ready_or_completed (s s' : Option JobItem)
    (h : OrchStep s s') (hs : ∀ i, s = some i → finalInv i) :
    ∀ i', s' = some i' → finalInv i' := by
  cases h with
  | create job_id user_id audio_key avatar_key voice_mode gesture_mode
      invocation_arn now =>
    intro i' hi'
    obtain rfl := Option.some.inj hi'
    unfold finalInv store_job_metadata
    constructor
    · intro hne
      exact absurd rfl hne
    · intro hor
      have hne1 : ("PENDING" : String) ≠ "READY" := by decide
      have hne2 : ("PENDING" : String) ≠ "COMPLETED" := by decide
      rcases hor with hx | hx
      · exact absurd hx hne1
      · exact absurd hx hne2
  | reconcile job_id store env =>
    exact reconcile_preserves_finalInv job_id _ env hs
  | mux job_id item hA =>
    intro i' hi'
    obtain rfl := Option.some.inj hi'
    unfold finalInv mux_handler_update
    constructor
    · intro _
      exact Or.inr rfl
    · intro _
      exact mux_key_ne_empty job_id

/-- Witness: the C1 invariant theorem applied to the concrete reconcile
transition taken by `item0` under `env0`. -/
theorem c1_final_key_iff_ready_or_completed_witness :
    finalInv { item0 with
                 status := "READY",
                 novaVideoKey := some "renders/raw-video/job-1/output.mp4",
                 finalVideoKey := some "renders/final/job-1.mp4" } := by
  have h := c1_final_key_iff_ready_or_completed (some item0)
      (check_nova_status_handler "job-1" (some item0) env0).store
      (OrchStep.reconcile "job-1" (some item0) env0)
      (by
        intro i hi
        obtain rfl := Option.some.inj hi
        decide)
  exact h _ (by decide)

/-- Counterexample to C1 as stated: after the reconcile transition from a
fresh `PENDING` record under a completed-and-visible environment, the
persisted record has a non-empty `finalVideoKey` while its persisted
status is `READY`, not `COMPLETED`. -/
theorem c1_counterexample :
    (check_nova_status_handler "job-1" (some item0) env0).store.map
        JobItem.status = some "READY" ∧
    (check_nova_status_handler "job-1" (some item0) env0).store.map
        JobItem.finalVideoKey = some (some "renders/final/job-1.mp4") ∧
    ("READY" : String) ≠ "COMPLETED" ∧
    ("renders/final/job-1.mp4" : String) ≠ "" := by decide

/-! ## C5 — external failure handling -/

/-- C5 (corrected): with the external operation reporting `FAILED`, a
reconcile cycle returns status `FAILED` and persists `status = FAILED` on
the record — but no `failureReason` is written anywhere (the response
carries no reason field and the record's `failureReason` attribute is
untouched; see `c5_counterexample`).  The absorbing part of the claim
holds: a further cycle with the backend still reporting `FAILED` yields
`FAILED` again and leaves the record fixed. -/
theorem c5_failed_absorbing_no_reason (item : JobItem) (jid : String)
    (listing : List String) (uriOpt : Option String)
    (hjid : jid ≠ "") (ha : truthy item.audioKey = true)
    (hf : item.finalVideoKey.getD "" = "") :
    (check_nova_status_handler jid (some item)
        ⟨PollOutcome.ok ⟨some "FAILED", uriOpt⟩, listing⟩ =
      ⟨{ jobId := jid, outStatus := "FAILED" },
       some { item with status := "FAILED" }, 0⟩) ∧
    ({ item with status := "FAILED" } : JobItem).failureReason =
      item.failureReason ∧
    (check_nova_status_handler jid
        (some { item with status := "FAILED" })
        ⟨PollOutcome.ok ⟨some "FAILED", uriOpt⟩, listing⟩ =
      ⟨{ jobId := jid, outStatus := "FAILED" },
       some { item with status := "FAILED" }, 0⟩) := by
  refine ⟨reconcile_extfail_eq item jid listing uriOpt hjid
    (bool_ne_false ha) hf, rfl, ?_⟩
  have h := reconcile_extfail_eq { item with status := "FAILED" } jid
    listing uriOpt hjid (bool_ne_false ha) hf
  exact h

/-- Witness: C5 applied to the fresh record `item0`. -/
theorem c5_failed_absorbing_no_reason_witness :
    check_nova_status_handler "job-1" (some item0)
        ⟨PollOutcome.ok ⟨some "FAILED", none⟩, []⟩ =
      ⟨{ jobId := "job-1", outStatus := "FAILED" },
       some { item0 with status := "FAILED" }, 0⟩ :=
  (c5_failed_absorbing_no_reason item0 "job-1" [] none (by decide)
    (by decide) (by decide)).1

/-- Counterexample to C5 as stated: on external failure, the response
carries no reason and the persisted record's `failureReason` is absent
(`none`) — the claimed "populated, machine-readable failureReason" does
not exist. -/
theorem c5_counterexample :
    (check_nova_status_handler "job-1" (some item0) envFailed).out.reason
      = none ∧
    (check_nova_status_handler "job-1" (some item0) envFailed).out.outStatus
      = "FAILED" ∧
    (check_nova_status_handler "job-1" (some item0) envFailed).store.map
        JobItem.failureReason = some none := by decide

/-! ## C6 — missing metadata record -/

/-- C6 (corrected): when the metadata record is missing, reconcile returns
`FAILED` with reason `JobNotFound` to its caller, but persists nothing —
the claimed write of `failureReason = "JobNotFound"` to the metadata store
does not happen (the handler returns before any `update_item`). -/
theorem c6_job_not_found_not_persisted (jid : String) (env : ReconcileEnv)
    (hjid : jid ≠ "") :
    check_nova_status_handler jid none env =
      ⟨{ jobId := jid, outStatus := "FAILED", reason := some "JobNotFound" },
       none, 0⟩ := by
  unfold check_nova_status_handler
  rw [if_neg hjid]

/-- Witness: C6 applied to a concrete job id and environment. -/
theorem c6_job_not_found_not_persisted_witness :
    check_nova_status_handler "job-1" none env0 =
      ⟨{ jobId := "job-1", outStatus := "FAILED",
         reason := some "JobNotFound" }, none, 0⟩ :=
  c6_job_not_found_not_persisted "job-1" env0 (by decide)

/-- Counterexample to C6 as stated: the metadata store still holds nothing
after the cycle — the reason is only in the response, never persisted. -/
theorem c6_counterexample :
    (check_nova_status_handler "job-1" none envFailed).store = none ∧
    (check_nova_status_handler "job-1" none envFailed).out.reason =
      some "JobNotFound" := by decide

/-! ## C2 — completion-and-visibility path -/

/-- C2 (corrected): when the external operation reports completed and the
output artifact is visible, a SINGLE reconcile cycle performs the merge and
persists status `READY` together with both `novaVideoKey` (the raw key) and
`finalVideoKey` — not "only rawVideoArtifactRef", and no subsequent cycle
performs the merge or a transition to `COMPLETED` (see `c2_counterexample`).
`getStatus` on the resulting record nevertheless reports `COMPLETED` with a
resolvable download reference. -/
theorem c2_single_cycle_merge (item : JobItem) (jid uri k : String)
    (listing : List String)
    (hjid : jid ≠ "") (ha : truthy item.audioKey = true)
    (hf : item.finalVideoKey.getD "" = "")
    (hu : startsWithStr uri "s3://" = true)
    (hk : listing.find? isMp4 = some k) :
    (check_nova_status_handler jid (some item)
        ⟨PollOutcome.ok ⟨some "COMPLETED", some uri⟩, listing⟩).store =
      some { item with
               status := "READY", novaVideoKey := some k,
               finalVideoKey := some (mux_audio_and_video jid) } ∧
    (check_nova_status_handler jid (some item)
        ⟨PollOutcome.ok ⟨some "COMPLETED", some uri⟩, listing⟩).merges = 1 ∧
    get_job_handler jid
        (check_nova_status_handler jid (some item)
          ⟨PollOutcome.ok ⟨some "COMPLETED", some uri⟩, listing⟩).store =
      { statusCode := 200, jobStatus := some "COMPLETED",
        videoUrl := some (generate_presigned_url BUCKET_NAME
          (mux_audio_and_video jid)) } := by
  have hmerge := reconcile_merge_eq item jid uri k listing hjid
    (bool_ne_false ha) hf hu hk
  rw [hmerge]
  refine ⟨rfl, rfl, ?_⟩
  have hget := get_job_ready_eq
    { item with
        status := "READY", novaVideoKey := some k,
        finalVideoKey := some (mux_audio_and_video jid) } jid hjid rfl
    (mux_key_ne_empty jid)
  rw [hget]
  rfl

/-- Witness: C2 applied to the fresh record `item0` under `env0`. -/
theorem c2_single_cycle_merge_witness :
    (check_nova_status_handler "job-1" (some item0) env0).merges = 1 ∧
    get_job_handler "job-1"
        (check_nova_status_handler "job-1" (some item0) env0).store =
      { statusCode := 200, jobStatus := some "COMPLETED",
        videoUrl := some (generate_presigned_url BUCKET_NAME
          (mux_audio_and_video "job-1")) } := by
  have h := c2_single_cycle_merge item0 "job-1"
    "s3://avatar-bucket/renders/raw-video/job-1/"
    "renders/raw-video/job-1/output.mp4"
    ["renders/raw-video/job-1/output.mp4"]
    (by decide) (by decide) (by decide) (by decide) (by decide)
  exact ⟨h.2.1, h.2.2⟩

/-- Counterexample to C2 as stated: the first reconcile cycle already
performs the merge (`merges = 1`) and persists a non-empty `finalVideoKey`
alongside `rawVideoArtifactRef`; the subsequent cycle performs no merge and
no transition — the record stays `READY`, never `COMPLETED`. -/
theorem c2_counterexample :
    (check_nova_status_handler "job-1" (some item0) env0).merges = 1 ∧
    (check_nova_status_handler "job-1" (some item0) env0).store.map
        JobItem.finalVideoKey = some (some "renders/final/job-1.mp4") ∧
    (check_nova_status_handler "job-1"
        (check_nova_status_handler "job-1" (some item0) env0).store
        env0).merges = 0 ∧
    (check_nova_status_handler "job-1"
        (check_nova_status_handler "job-1" (some item0) env0).store
        env0).store =
      (check_nova_status_handler "job-1" (some item0) env0).store ∧
    (check_nova_status_handler "job-1"
        (check_nova_status_handler "job-1" (some item0) env0).store
        env0).store.map JobItem.status = some "READY" := by decide

/-! ## C3 — merge idempotency -/

/-- C3 (corrected): finalization checks `finalVideoKey` once, when the
record is read at the start of the cycle, and does not re-check before
committing; two cycles overlapping on the same snapshot therefore each
execute the merge (see `c3_counterexample`).  Sequentially the claim's
observable part holds: after a completed merge, a second reconcile
performs no merge, changes nothing, and returns the identical final
reference (both calls return the deterministic key `renders/final/<jobId>.mp4`). -/
theorem c3_sequential_idempotence (item : JobItem) (jid uri k : String)
    (listing : List String)
    (hjid : jid ≠ "") (ha : truthy item.audioKey = true)
    (hf : item.finalVideoKey.getD "" = "")
    (hu : startsWithStr uri "s3://" = true)
    (hk : listing.find? isMp4 = some k) :
    (check_nova_status_handler jid (some item)
        ⟨PollOutcome.ok ⟨some "COMPLETED", some uri⟩, listing⟩).merges = 1 ∧
    (check_nova_status_handler jid
        (check_nova_status_handler jid (some item)
          ⟨PollOutcome.ok ⟨some "COMPLETED", some uri⟩, listing⟩).store
        ⟨PollOutcome.ok ⟨some "COMPLETED", some uri⟩, listing⟩).merges
      = 0 ∧
    (check_nova_status_handler jid
        (check_nova_status_handler jid (some item)
          ⟨PollOutcome.ok ⟨some "COMPLETED", some uri⟩, listing⟩).store
        ⟨PollOutcome.ok ⟨some "COMPLETED", some uri⟩, listing⟩).store
      =
      (check_nova_status_handler jid (some item)
        ⟨PollOutcome.ok ⟨some "COMPLETED", some uri⟩, listing⟩).store ∧
    (check_nova_status_handler jid
        (check_nova_status_handler jid (some item)
          ⟨PollOutcome.ok ⟨some "COMPLETED", some uri⟩, listing⟩).store
        ⟨PollOutcome.ok ⟨some "COMPLETED", some uri⟩, listing⟩).out.novaVideoKey
      =
      (check_nova_status_handler jid (some item)
        ⟨PollOutcome.ok ⟨some "COMPLETED", some uri⟩, listing⟩).out.novaVideoKey := by
  have hmerge := reconcile_merge_eq item jid uri k listing hjid
    (bool_ne_false ha) hf hu hk
  rw [hmerge]
  have hsc := reconcile_shortcircuit_eq
    { item with
        status := "READY", novaVideoKey := some k,
        finalVideoKey := some (mux_audio_and_video jid) } jid
    ⟨PollOutcome.ok ⟨some "COMPLETED", some uri⟩, listing⟩ hjid
    (bool_ne_false ha) (mux_key_ne_empty jid)
  rw [hsc]
  exact ⟨rfl, rfl, rfl, rfl⟩

/-- Witness: C3 applied to the fresh record `item0` under `env0`. -/
theorem c3_sequential_idempotence_witness :
    (check_nova_status_handler "job-1" (some item0) env0).merges = 1 ∧
    (check_nova_status_handler "job-1"
        (check_nova_status_handler "job-1" (some item0) env0).store
        env0).merges = 0 := by
  have h := c3_sequential_idempotence item0 "job-1"
    "s3://avatar-bucket/renders/raw-video/job-1/"
    "renders/raw-video/job-1/output.mp4"
    ["renders/raw-video/job-1/output.mp4"]
    (by decide) (by decide) (by decide) (by decide) (by decide)
  exact ⟨h.1, h.2.1⟩

/-- Counterexample to C3 as stated: two overlapping reconcile cycles that
both read the job record before either commits each execute the merge —
two merge computations for one job, refuting "at most one merge is ever
executed per job, even under concurrent reconcile invocations" and the
claimed re-check of `finalArtifactRef` immediately before committing. -/
theorem c3_counterexample :
    (overlapped_reconcile "job-1" (some item0) env0).1.merges +
      (overlapped_reconcile "job-1" (some item0) env0).2.merges = 2 := by
  decide

/-! ## C4 — artifact discovery -/

/-- C4 (corrected): discovery selects the FIRST listed object whose
lowercased key ends in `.mp4` (the persisted raw key is exactly
`listing.find? isMp4`); an empty listing or a listing with no matching
object leaves the record unchanged and reports `PENDING` (never `FAILED`,
never `READY`), with no merge.  Because a cycle is a pure function of the
record and environment and changes neither, any number of retries under a
non-matching listing still reports `PENDING`: the code has no bounded-retry
discovery-failure path and no discovery-specific `FAILED` reason. -/
theorem c4_discovery_first_match_or_pending (item : JobItem)
    (jid uri : String) (listing : List String) (n : Nat)
    (hjid : jid ≠ "") (ha : truthy item.audioKey = true)
    (hf : item.finalVideoKey.getD "" = "")
    (hu : startsWithStr uri "s3://" = true) :
    (listing.find? isMp4 = none →
      check_nova_status_handler jid (some item)
          ⟨PollOutcome.ok ⟨some "COMPLETED", some uri⟩, listing⟩ =
        ⟨{ jobId := jid, outStatus := "PENDING" }, some item, 0⟩ ∧
      iterate_reconcile jid
          ⟨PollOutcome.ok ⟨some "COMPLETED", some uri⟩, listing⟩ n
          (some item) =
        ⟨{ jobId := jid, outStatus := "PENDING" }, some item, 0⟩) ∧
    (∀ k, listing.find? isMp4 = some k →
      (check_nova_status_handler jid (some item)
          ⟨PollOutcome.ok ⟨some "COMPLETED", some uri⟩, listing⟩).store.map
        JobItem.novaVideoKey = some (some k)) := by
  constructor
  · intro hk
    have hpend := reconcile_not_visible_eq item jid uri listing hjid
      (bool_ne_false ha) hf hu hk
    refine ⟨hpend, ?_⟩
    induction n with
    | zero => exact hpend
    | succ m ih =>
      show iterate_reconcile jid _ m
        (check_nova_status_handler jid (some item) _).store = _
      rw [hpend]
      exact ih
  · intro k hk
    have hmerge := reconcile_merge_eq item jid uri k listing hjid
      (bool_ne_false ha) hf hu hk
    rw [hmerge]
    rfl

/-- Witness: C4's stay-`PENDING` half applied to `item0` under the
non-empty non-matching listing of `envNoMp4`, iterated four times. -/
theorem c4_discovery_first_match_or_pending_witness :
    iterate_reconcile "job-1" envNoMp4 3 (some item0) =
      ⟨{ jobId := "job-1", outStatus := "PENDING" }, some item0, 0⟩ := by
  have h := c4_discovery_first_match_or_pending item0 "job-1"
    "s3://avatar-bucket/renders/raw-video/job-1/"
    ["renders/raw-video/job-1/output.txt"] 3
    (by decide) (by decide) (by decide) (by decide)
  exact (h.1 (by decide)).2

/-- Counterexample to C4 as stated: under a non-empty listing with no
matching suffix the cycle reports `PENDING` and leaves the record
unchanged, and after 25 further retries the job is still `PENDING` with the
record unchanged — it never becomes `FAILED` with a discovery-specific
reason. -/
theorem c4_counterexample :
    (check_nova_status_handler "job-1" (some item0) envNoMp4).out.outStatus
      = "PENDING" ∧
    (check_nova_status_handler "job-1" (some item0) envNoMp4).store
      = some item0 ∧
    (iterate_reconcile "job-1" envNoMp4 25 (some item0)).out.outStatus
      = "PENDING" ∧
    (iterate_reconcile "job-1" envNoMp4 25 (some item0)).store
      = some item0 := by decide

/-! ## C7 — createJob validation -/

/-- C7 (corrected): `createJob` rejects with a validation error — with no
side effects — exactly when the script is empty/missing, the avatar key is
empty/missing, the voice mode lies outside `{polly, cloned}` (the code
spells the standard mode `polly`; the literal value `standard` is itself
rejected, see `c7_counterexample`), the gesture mode lies outside
`{subtle, expressive}` (a condition the claim omits), or the duration lies
outside `[5, 120]`. -/
theorem c7_validation_characterization (b : CreateBody) (jid arn : String)
    (now : Nat) :
    (validationRejects b = true ↔
      (truthy b.script = false ∨ truthy b.avatarKey = false ∨
        (b.voiceMode.getD "polly" ≠ "polly" ∧
          b.voiceMode.getD "polly" ≠ "cloned") ∨
        (b.gestureMode.getD "subtle" ≠ "subtle" ∧
          b.gestureMode.getD "subtle" ≠ "expressive") ∨
        b.durationSeconds.getD DEFAULT_DURATION < 5 ∨
        120 < b.durationSeconds.getD DEFAULT_DURATION)) ∧
    (validationRejects b = true →
      create_job_handler b jid arn now = (400, [])) := by
  constructor
  · simp only [validationRejects, validate_request]
    split_ifs with h1 h2 h3 h4 h5 <;> simp_all
  · intro hrej
    unfold create_job_handler
    cases hv : validate_request b with
    | error e => rfl
    | ok u =>
      exfalso
      unfold validationRejects at hrej
      rw [hv] at hrej
      cases hrej

/-- Witness: C7's no-side-effect half applied to the concrete invalid body
`bodyBadGesture`. -/
theorem c7_validation_characterization_witness :
    create_job_handler bodyBadGesture "job-1" "arn-1" 0 = (400, []) :=
  (c7_validation_characterization bodyBadGesture "job-1" "arn-1" 0).2
    (by decide)

/-- Counterexample to C7 as stated: `bodyBadGesture` satisfies none of the
claim's four rejection conditions (non-empty script, avatar key present,
voice mode `polly`, duration 18) yet is rejected because of its gesture
mode; and the claim's accepted voice-mode name `standard` is itself
rejected by the code, which accepts `polly` instead. -/
theorem c7_counterexample :
    validationRejects bodyBadGesture = true ∧
    truthy bodyBadGesture.script = true ∧
    truthy bodyBadGesture.avatarKey = true ∧
    bodyBadGesture.voiceMode = some "polly" ∧
    bodyBadGesture.durationSeconds = some 18 ∧
    validationRejects bodyStandardVoice = true := by decide

/-! ## C8 — duration clamp and the persisted record -/

/-- C8 (corrected): every dispatch requests exactly 6 seconds from the
backend regardless of the caller-supplied duration, but the persisted job
record does NOT record the actually-requested duration: `put_item` writes
no duration attribute at all, so the whole handler outcome is independent
of the validated caller duration. -/
theorem c8_duration_clamped_not_recorded (b : CreateBody) (d1 d2 : Int)
    (jid arn : String) (now : Nat)
    (h1 : 5 ≤ d1) (h2 : d1 ≤ 120) (h3 : 5 ≤ d2) (h4 : d2 ≤ 120) :
    create_job_handler { b with durationSeconds := some d1 } jid arn now =
      create_job_handler { b with durationSeconds := some d2 } jid arn now ∧
    (start_nova_reel_config d1).durationSeconds = 6 ∧
    "durationSeconds" ∉
      (store_job_metadata_attrs jid (b.userId.getD "anonymous")
          ("renders/audio/" ++ jid ++ ".mp3") (b.avatarKey.getD "")
          (b.voiceMode.getD "polly") (b.gestureMode.getD "subtle") arn
          now).map Prod.fst := by
  have hd1 : ¬ (d1 < 5 ∨ 120 < d1) := by omega
  have hd2 : ¬ (d2 < 5 ∨ 120 < d2) := by omega
  have hval : validate_request { b with durationSeconds := some d1 } =
      validate_request { b with durationSeconds := some d2 } := by
    simp only [validate_request, Option.getD_some]
    rw [if_neg hd1, if_neg hd2]
  refine ⟨?_, rfl, ?_⟩
  · cases hv : validate_request { b with durationSeconds := some d2 } with
    | error e =>
      unfold create_job_handler
      rw [hval, hv]
    | ok u =>
      unfold create_job_handler
      rw [hval, hv]
      simp [start_nova_reel_config, store_job_metadata]
  · simp only [store_job_metadata_attrs, List.map]
    decide

/-- Witness: C8 applied to `bodyOk` with caller durations 18 and 60. -/
theorem c8_duration_clamped_not_recorded_witness :
    create_job_handler { bodyOk with durationSeconds := some 18 }
        "job-1" "arn-1" 0 =
      create_job_handler { bodyOk with durationSeconds := some 60 }
        "job-1" "arn-1" 0 :=
  (c8_duration_clamped_not_recorded bodyOk 18 60 "job-1" "arn-1" 0
    (by decide) (by decide) (by decide) (by decide)).1

/-- Counterexample to C8 as stated: the caller asks for 18 seconds, the
dispatch requests 6, and the persisted record carries no duration attribute
at all — requests for 18 and for 60 seconds persist the identical record,
so the record does not "record the duration that was actually requested
from the backend". -/
theorem c8_counterexample :
    (start_nova_reel_config 18).durationSeconds = 6 ∧
    (18 : Int) ≠ 6 ∧
    create_job_handler { bodyOk with durationSeconds := some 18 }
        "job-1" "arn-1" 0 =
      create_job_handler { bodyOk with durationSeconds := some 60 }
        "job-1" "arn-1" 0 ∧
    "durationSeconds" ∉
      (store_job_metadata_attrs "job-1" "u1" "renders/audio/job-1.mp3"
          "uploads/u1/avatar.png" "polly" "subtle" "arn-1" 0).map
        Prod.fst := by decide

/-! ## C9 — externally visible states -/

/-- C9 (confirmed): for records in one of the four statuses the
orchestrator persists, `get_job_handler` reports only `PENDING`,
`COMPLETED` or `FAILED` — never `READY`; a persisted-`READY` record is
reported `COMPLETED`, and (given the maintained final-key relationship,
`finalInv`) with a presigned video URL attached. -/
theorem c9_ready_reported_completed (item : JobItem) (jid : String)
    (hjid : jid ≠ "")
    (hst : item.status = "PENDING" ∨ item.status = "READY" ∨
      item.status = "COMPLETED" ∨ item.status = "FAILED") :
    ((get_job_handler jid (some item)).jobStatus = some "PENDING" ∨
      (get_job_handler jid (some item)).jobStatus = some "COMPLETED" ∨
      (get_job_handler jid (some item)).jobStatus = some "FAILED") ∧
    (get_job_handler jid (some item)).jobStatus ≠ some "READY" ∧
    (item.status = "READY" →
      (get_job_handler jid (some item)).jobStatus = some "COMPLETED") ∧
    (item.status = "READY" → finalInv item →
      (get_job_handler jid (some item)).videoUrl.isSome = true) := by
  have hjs : (get_job_handler jid (some item)).jobStatus =
      some (ui_status_of item.status) := by
    simp only [get_job_handler, ui_status_of, if_neg hjid]
    split <;> split <;> split <;> rfl
  refine ⟨?_, ?_, ?_, ?_⟩
  · rcases hst with h | h | h | h
    · left
      rw [hjs, h]
      decide
    · right; left
      rw [hjs, h]
      decide
    · right; left
      rw [hjs, h]
      decide
    · right; right
      rw [hjs, h]
      decide
  · rw [hjs]
    rcases hst with h | h | h | h <;> rw [h] <;> decide
  · intro h
    rw [hjs, h]
    decide
  · intro h hinv
    have hk : ¬ item.finalVideoKey.getD "" = "" := hinv.mpr (Or.inl h)
    rw [get_job_ready_eq item jid hjid h hk]
    rfl

/-- Witness: C9 applied to the concrete persisted-`READY` record
`readyItem0`. -/
theorem c9_ready_reported_completed_witness :
    (get_job_handler "job-1" (some readyItem0)).jobStatus
      = some "COMPLETED" ∧
    (get_job_handler "job-1" (some readyItem0)).videoUrl.isSome = true := by
  have h := c9_ready_reported_completed readyItem0 "job-1" (by decide)
    (by decide)
  exact ⟨h.2.2.1 (by decide), h.2.2.2 (by decide) (by decide)⟩

/-! ## C10 — voice-sample key alignment -/

/-- C10 (confirmed): the key under which the upload-URL handler places a
`voice` file for a user lies under exactly the prefix that cloned-voice
generation searches for that user, so an uploaded sample is discovered by
`predict_fn`'s listing (its selected sample is `contents[0]`, which
exists). -/
theorem c10_voice_sample_alignment (u f k : String) (objects : List String)
    (hk : upload_object_key u f "voice" = some k) (hmem : k ∈ objects) :
    (voiceSamplesPfxOf u).data.isPrefixOf k.data = true ∧
    (predict_find_sample objects u).isSome = true := by
  have hkey : "voice-samples/" ++ u ++ "/" ++ f = k := by
    unfold upload_object_key at hk
    rw [if_neg (by decide), if_pos rfl] at hk
    exact Option.some.inj hk
  have hpre : (voiceSamplesPfxOf u).data.isPrefixOf k.data = true := by
    rw [← hkey]
    show (voiceSamplesPfxOf u).data.isPrefixOf
      (voiceSamplesPfxOf u ++ f).data = true
    rw [String.data_append, List.isPrefixOf_iff_prefix]
    exact List.prefix_append _ _
  refine ⟨hpre, ?_⟩
  have hmemf : k ∈ s3_list_objects objects (voiceSamplesPfxOf u) := by
    unfold s3_list_objects
    exact List.mem_filter.mpr ⟨hmem, hpre⟩
  unfold predict_find_sample
  cases hl : s3_list_objects objects (voiceSamplesPfxOf u) with
  | nil =>
    rw [hl] at hmemf
    cases hmemf
  | cons a as =>
    rfl

/-- Witness: C10 applied to a concrete user, file name and bucket
content. -/
theorem c10_voice_sample_alignment_witness :
    (voiceSamplesPfxOf "u1").data.isPrefixOf
        ("voice-samples/u1/sample.wav" : String).data = true ∧
    (predict_find_sample ["voice-samples/u1/sample.wav"] "u1").isSome
      = true :=
  c10_voice_sample_alignment "u1" "sample.wav" "voice-samples/u1/sample.wav"
    ["voice-samples/u1/sample.wav"] (by decide) (by decide)

end AvatarMvp
